import Mathlib

/-!
Shallow embedding of the Thermolog recording-session manager
(repository `StevenRS11/thermocouples`).

The embedding follows the v2.2 sketch `src/thermocouples/thermocouples.ino`
line by line; `buildCsvHeader` is taken from the v2.1 variant of the sketch
(the second source file of the repository), which is where it is defined.

Modelling conventions:
* `uint32_t` millisecond counters become `Nat` (all claims are about a single
  session in which time is monotone, so the `uint32_t` wrap-around subtraction
  `now - last` agrees with truncated `Nat` subtraction).
* The SD card, the wall clock and the serial port are a pure environment
  record `Env` of oracles: `sdReady` is the result of `SD.begin`,
  `sdExists p` the result of `SD.exists(p)`, `openOk p` whether
  `SD.open(p, FILE_WRITE)` yields a valid handle, and `writeOk i` whether the
  i-th `logFile.print` of a flush call writes the full line.
* `float` temperatures are embedded as `Option Int`: `none` is the `NAN`
  fault sentinel (`isnan`), `some c` a valid reading already scaled to the
  centi-units that `snprintf("%.2f", ...)` renders; `fmt2c` is the embedding
  of that fixed two-decimal rendering.  The claims under verification are
  structural (field layout, the literal `NaN`, separators), not about
  floating-point rounding.
* `snprintf`-style decimal rendering of integers (`%lu`, `%d`, `%02d`) is
  embedded by the executable `decRepr` / `pad2` below.
-/

namespace Thermolog

/-! ### Compile-time constants (the `#define`s of the sketch) -/

def SENSOR_INTERVAL_MS : Nat := 500

def LOG_INTERVAL_MS : Nat := 5000

def BATCH_WINDOW_MS : Nat := 60000

/-- `BATCH_MAX_LINES = BATCH_WINDOW_MS / LOG_INTERVAL_MS` (= 12). -/
def BATCH_MAX_LINES : Nat := BATCH_WINDOW_MS / LOG_INTERVAL_MS

/-- `ROTATE_BYTES = 10UL * 1024UL * 1024UL`. -/
def ROTATE_BYTES : Nat := 10 * 1024 * 1024

/-! ### Decimal rendering (embedding of `%lu` / `%d` / `%02d`) -/

/-- Little-endian decimal digits of `n`, with explicit fuel so the recursion
is structural (the fuel `n` itself always suffices). -/
def decDigitsAux : Nat → Nat → List Nat
  | 0, _ => []
  | fuel + 1, n => if n = 0 then [] else n % 10 :: decDigitsAux fuel (n / 10)

def decDigits (n : Nat) : List Nat := decDigitsAux n n

/-- Big-endian digit list as printed; `0` prints as the single digit `0`. -/
def decDigitsBE (n : Nat) : List Nat :=
  if n = 0 then [0] else (decDigits n).reverse

/-- Decimal rendering of a natural number, the embedding of `%lu`/`%d`. -/
def decRepr (n : Nat) : String :=
  ((decDigitsBE n).map Nat.digitChar).asString

/-- Embedding of `%02d`: two-digit zero padding. -/
def pad2 (n : Nat) : String :=
  if n < 10 then "0" ++ decRepr n else decRepr n

/-- Value of a little-endian digit list. -/
def digitVal : List Nat → Nat
  | [] => 0
  | d :: ds => d + 10 * digitVal ds

/-! ### Fixed-point rendering (embedding of `%.2f`) -/

/-- Embedding of `snprintf("%.2f", x)` for the value `x` whose exact printed
centi-units are `c` (so `x ≈ c / 100`): sign, integer part, `.`, two decimals. -/
def fmt2c (c : Int) : String :=
  (if c < 0 then "-" else "") ++ decRepr (c.natAbs / 100) ++ "." ++ pad2 (c.natAbs % 100)

/-- One CSV channel field: the fault sentinel (`isnan`) prints the literal
`NaN`, a valid reading prints with two decimals (thermocouples.ino:403-404). -/
def csvField : Option Int → String
  | none => "NaN"
  | some c => fmt2c c

/-- Embedding of `appendLineToBatch`'s line formatting
(thermocouples.ino:400-407): `"%.2f,%lu,"` for elapsed seconds and sequence
number, then the six channel fields with `","` after each but the last, then
`"\n"`.  `temps.getD i none` is the read of `latestTemps[i]`. -/
def formatLine (temps : List (Option Int)) (elapsedMs seq : Nat) : String :=
  fmt2c (Int.ofNat (elapsedMs / 10)) ++ "," ++ decRepr seq ++ "," ++
    ((List.range 6).foldl
      (fun acc i => acc ++ csvField (temps.getD i none) ++ (if i < 5 then "," else "")) "")
    ++ "\n"

/-! ### CSV header -/

/-- The constant CSV header of the v2.2 sketch (thermocouples.ino:344). -/
def CSV_HEADER : String := "elapsed_s,seq,T1_C,T2_C,T3_C,T4_C,T5_C,T6_C"

/-- Embedding of `buildCsvHeader` from the v2.1 sketch: start from
`"elapsed_s,seq"` and append `",T%d_C"` for `i = 1..nCh`. -/
def buildCsvHeader (nCh : Nat) : String :=
  (List.range' 1 nCh).foldl (fun acc i => acc ++ ",T" ++ decRepr i ++ "_C") "elapsed_s,seq"

/-- Helper for `commaFields`: split a character list at every `','`,
accumulating the current field in reverse. -/
def splitCommaAux : List Char → List Char → List String
  | [], acc => [acc.reverse.asString]
  | c :: rest, acc =>
    if c = ',' then acc.reverse.asString :: splitCommaAux rest []
    else splitCommaAux rest (c :: acc)

/-- The comma-separated fields of a string (an executable splitter used to
state the CSV-shape claims). -/
def commaFields (s : String) : List String :=
  splitCommaAux s.data []

/-! ### Environment and mutable state -/

/-- Record of recording states (`enum RecState { IDLE, RECORDING }`). -/
inductive RecState
  | IDLE
  | RECORDING
deriving DecidableEq, Repr

/-- Pure environment of external oracles standing for the SD card and the
wall clock during one call chain: `sdReady` is `SD.begin`, `timeOk` is
`hasRealTime` (with `dateStr`/`timeStr` the formatted date and time of day
when valid), `sdExists p` is `SD.exists(p)`, `openOk p` is whether
`SD.open(p, FILE_WRITE)` returns a valid handle, and `writeOk i` is whether
the i-th `logFile.print` inside one `flushBatchToFile` call writes the full
line. -/
structure Env where
  sdReady : Bool
  timeOk : Bool
  dateStr : String
  timeStr : String
  sdExists : String → Bool
  openOk : String → Bool
  writeOk : Nat → Bool
deriving Inhabited

/-- The sketch's global mutable state (the fields the session manager owns):
`state`, `logFile` (as `fileOpen` plus its current `fileSize`),
`sessionDir`/`sessionFile`/`sessionPath`, the batch buffer
(`batchBuf[0..batchCount)` as a list), the timers, and the status LED pin. -/
structure Sys where
  state : RecState
  fileOpen : Bool
  fileSize : Nat
  sessionDir : String
  sessionFile : String
  sessionPath : String
  batch : List String
  recStartMs : Nat
  lastLogMs : Nat
  lastBatchMs : Nat
  led : Bool
deriving DecidableEq, Repr

/-! ### Session Path Builder -/

/-- The fallback file name when no wall clock is available
(`"SESSION_ms%lu.csv"` of `millis()`, thermocouples.ino:338). -/
def sessionFileNameNoRtc (ms : Nat) : String :=
  "SESSION_ms" ++ decRepr ms ++ ".csv"

/-- Embedding of `buildSessionPaths` (thermocouples.ino:326-342): with a
valid wall clock the directory encodes the date and the file name the time of
day; otherwise the directory is the fixed `/logs` root and the file name
embeds `millis()`.  The `SD.mkdir` side effect has no observable state in the
model.  `sessionPath = sessionDir ++ "/" ++ sessionFile`. -/
def buildSessionPaths (env : Env) (now : Nat) (s : Sys) : Sys :=
  if env.timeOk then
    let dir := "/logs/" ++ env.dateStr
    let file := "SESSION_" ++ env.timeStr ++ ".csv"
    { s with sessionDir := dir, sessionFile := file, sessionPath := dir ++ "/" ++ file }
  else
    let dir := "/logs"
    let file := sessionFileNameNoRtc now
    { s with sessionDir := dir, sessionFile := file, sessionPath := dir ++ "/" ++ file }

/-! ### Session File Lifecycle -/

/-- The i-th rotation candidate path:
`"%s/%.*s_%02d.csv"` with the base file name stripped of its `".csv"` tail
(thermocouples.ino:351-352). -/
def rotatedCandidate (dir file : String) (i : Nat) : String :=
  dir ++ "/" ++ file.dropRight 4 ++ "_" ++ pad2 i ++ ".csv"

/-- The suffix-probing loop of `openNewSessionFile` (thermocouples.ino:350-354),
structurally recursive on the number of remaining indices: starting at index
`i`, take the first candidate that does not exist; when every index is
exhausted the loop leaves `sessionPath` at `base` (the freshly built
unsuffixed path). -/
def rotPathAux (ex : String → Bool) (dir file base : String) : Nat → Nat → String
  | _, 0 => base
  | i, r + 1 =>
    if ex (rotatedCandidate dir file i) then rotPathAux ex dir file base (i + 1) r
    else rotatedCandidate dir file i

/-- The resolved rotation path: indices `1..99` in increasing order. -/
def pickRotationPath (ex : String → Bool) (dir file base : String) : String :=
  rotPathAux ex dir file base 1 99

/-- Embedding of `openNewSessionFile` (thermocouples.ino:346-392): rebuild the
session paths, probe rotation suffixes when rotating, then `SD.open`.  On a
successful open the manifest block and the CSV header are written and flushed
(their bytes are not tracked; `fileSize` restarts at 0), the batch buffer is
cleared and `lastBatchMs` is reset.  On a failed open the assignment
`logFile = SD.open(...)` leaves an invalid handle, so `fileOpen` becomes
`false` and the function returns failure. -/
def openNewSessionFile (isRotation : Bool) (env : Env) (now : Nat) (s : Sys) :
    Bool × Sys :=
  let s1 := buildSessionPaths env now s
  let s2 :=
    if isRotation then
      { s1 with sessionPath :=
          pickRotationPath env.sdExists s1.sessionDir s1.sessionFile s1.sessionPath }
    else s1
  if env.openOk s2.sessionPath then
    (true, { s2 with fileOpen := true, fileSize := 0, batch := [], lastBatchMs := now })
  else
    (false, { s2 with fileOpen := false })

/-- Embedding of `closeSessionFile` (thermocouples.ino:394-396): flush and
close when open; a no-op when already closed. -/
def closeSessionFile (s : Sys) : Sys :=
  { s with fileOpen := false }

/-! ### Batch Buffer -/

/-- Embedding of `appendLineToBatch` (thermocouples.ino:398-412): fail without
change when the buffer is full, otherwise append the formatted line. -/
def appendLineToBatch (temps : List (Option Int)) (elapsedMs seq : Nat)
    (batch : List String) : Bool × List String :=
  if BATCH_MAX_LINES ≤ batch.length then (false, batch)
  else (true, batch ++ [formatLine temps elapsedMs seq])

/-- The write loop of `flushBatchToFile`: write the lines in order starting at
write index `i`; the result is whether every write was complete together with
the bytes the file received (the lines before the first failing one are
physically written even when the flush fails). -/
def writeLines (w : Nat → Bool) : Nat → List String → Bool × Nat
  | _, [] => (true, 0)
  | i, l :: rest =>
    if w i then
      let (ok, b) := writeLines w (i + 1) rest
      (ok, l.length + b)
    else (false, 0)

/-- Embedding of `flushBatchToFile` (thermocouples.ino:414-423): fail when no
file is open; succeed immediately on an empty batch; otherwise write every
line in order and treat a partial write (`logFile.print` returning fewer bytes
than the line length) as failure of the whole flush, leaving `batchCount`
untouched.  Only a fully successful flush clears the batch. -/
def flushBatchToFile (w : Nat → Bool) (s : Sys) : Bool × Sys :=
  if !s.fileOpen then (false, s)
  else if s.batch = [] then (true, s)
  else
    let (ok, bytes) := writeLines w 0 s.batch
    if ok then (true, { s with fileSize := s.fileSize + bytes, batch := [] })
    else (false, { s with fileSize := s.fileSize + bytes })

/-- Embedding of `rotateIfNeeded` (thermocouples.ino:425-436): a no-op when no
file is open or the size is below `ROTATE_BYTES`; otherwise flush, close, and
try to open a rotated file; a failed rotated open only prints a message (the
function returns `void`, the state keeps `state = RECORDING` with no open
file). -/
def rotateIfNeeded (env : Env) (now : Nat) (s : Sys) : Sys :=
  if !s.fileOpen then s
  else if s.fileSize < ROTATE_BYTES then s
  else
    let s1 := closeSessionFile s
    (openNewSessionFile true env now s1).2

/-! ### Recording State Machine -/

/-- The sequence number of the sample taken at `now` in the session started
at `recStart`: `(now - recStartMs) / LOG_INTERVAL_MS` (thermocouples.ino:194),
i.e. the floor of elapsed time over the sample interval. -/
def seqAt (recStart now : Nat) : Nat :=
  (now - recStart) / LOG_INTERVAL_MS

/-- Embedding of `setRecording` (thermocouples.ino:464-493).
Start: fail and stay `IDLE` with the LED low when `SD.begin` fails or
`openNewSessionFile(false)` fails; otherwise reset the timers and the batch,
drive the LED high and become `RECORDING`.
Stop: attempt one final flush (its failure is only reported), close the
session file, drive the LED low and become `IDLE`. -/
def setRecording (turnOn : Bool) (env : Env) (now : Nat) (s : Sys) : Sys :=
  if turnOn then
    if !env.sdReady then { s with led := false, state := RecState.IDLE }
    else
      match openNewSessionFile false env now s with
      | (false, s1) => { s1 with led := false, state := RecState.IDLE }
      | (true, s1) =>
        { s1 with recStartMs := now, lastLogMs := now, lastBatchMs := now,
                  batch := [], led := true, state := RecState.RECORDING }
  else
    let s1 := (flushBatchToFile env.writeOk s).2
    let s2 := closeSessionFile s1
    { s2 with led := false, state := RecState.IDLE }

/-- The sampling branch of `loop` (thermocouples.ino:192-205), entered when
`now - lastLogMs >= LOG_INTERVAL_MS`: record the tick time, compute the
sequence number and elapsed time, and try to append; when the buffer is full,
flush and retry the append, and when that flush fails stop the recording. -/
def sampleStep (env : Env) (now : Nat) (temps : List (Option Int)) (s : Sys) : Sys :=
  let s0 := { s with lastLogMs := now }
  let seq := seqAt s0.recStartMs now
  let elapsedMs := now - s0.recStartMs
  match appendLineToBatch temps elapsedMs seq s0.batch with
  | (true, b) => { s0 with batch := b }
  | (false, _) =>
    match flushBatchToFile env.writeOk s0 with
    | (true, s1) => { s1 with batch := (appendLineToBatch temps elapsedMs seq s1.batch).2 }
    | (false, s1) => setRecording false env now s1

/-- The flush branch of `loop` (thermocouples.ino:208-216): flush the batch;
on failure stop the recording, on success reset the batch window timer and
check rotation. -/
def flushStep (env : Env) (now : Nat) (s : Sys) : Sys :=
  match flushBatchToFile env.writeOk s with
  | (false, s1) => setRecording false env now s1
  | (true, s1) => rotateIfNeeded env now { s1 with lastBatchMs := now }

/-- First statement inside the `state == RECORDING` block of `loop`
(thermocouples.ino:192): the sampling branch runs when the sample interval
elapsed. -/
def tickSamplePhase (env : Env) (now : Nat) (temps : List (Option Int)) (s : Sys) : Sys :=
  if LOG_INTERVAL_MS ≤ now - s.lastLogMs then sampleStep env now temps s else s

/-- Second statement inside the `state == RECORDING` block of `loop`
(thermocouples.ino:208): the flush branch runs when the batch window elapsed
or the buffer is full. -/
def tickFlushPhase (env : Env) (now : Nat) (s : Sys) : Sys :=
  if BATCH_WINDOW_MS ≤ now - s.lastBatchMs ∨ BATCH_MAX_LINES ≤ s.batch.length then
    flushStep env now s
  else s

/-- The recording part of one `loop` iteration (thermocouples.ino:191-217):
when `state == RECORDING` at entry, run the sampling branch, then the flush
branch (both inner branches run inside the one outer state test, as in the C
source). -/
def tick (env : Env) (now : Nat) (temps : List (Option Int)) (s : Sys) : Sys :=
  if s.state = RecState.RECORDING then
    tickFlushPhase env now (tickSamplePhase env now temps s)
  else s

/-! ### Concrete environments and states used to instantiate the theorems -/

/-- SD card fully healthy, no wall clock. -/
def envAllOk : Env :=
  { sdReady := true, timeOk := false, dateStr := "", timeStr := "",
    sdExists := fun _ => false, openOk := fun _ => true, writeOk := fun _ => true }

/-- SD card mounts but every `SD.open` fails. -/
def envNoOpen : Env :=
  { sdReady := true, timeOk := false, dateStr := "", timeStr := "",
    sdExists := fun _ => false, openOk := fun _ => false, writeOk := fun _ => true }

/-- Storage medium not ready (`SD.begin` fails). -/
def envNoSd : Env :=
  { sdReady := false, timeOk := false, dateStr := "", timeStr := "",
    sdExists := fun _ => false, openOk := fun _ => true, writeOk := fun _ => true }

/-- Every probed path already exists on the card; opens succeed. -/
def envAllExist : Env :=
  { sdReady := true, timeOk := false, dateStr := "", timeStr := "",
    sdExists := fun _ => true, openOk := fun _ => true, writeOk := fun _ => true }

/-- Idle state right after boot. -/
def sysIdle : Sys :=
  { state := RecState.IDLE, fileOpen := false, fileSize := 0,
    sessionDir := "", sessionFile := "", sessionPath := "",
    batch := [], recStartMs := 0, lastLogMs := 0, lastBatchMs := 0, led := false }

/-- Recording, but the session file is not open and one line is buffered. -/
def sysClosed1 : Sys :=
  { state := RecState.RECORDING, fileOpen := false, fileSize := 0,
    sessionDir := "/logs", sessionFile := "f.csv", sessionPath := "/logs/f.csv",
    batch := ["x"], recStartMs := 0, lastLogMs := 0, lastBatchMs := 0, led := true }

/-- Recording with an open session file holding one buffered line. -/
def sysOpen1 : Sys :=
  { state := RecState.RECORDING, fileOpen := true, fileSize := 100,
    sessionDir := "/logs", sessionFile := "f.csv", sessionPath := "/logs/f.csv",
    batch := ["x"], recStartMs := 0, lastLogMs := 0, lastBatchMs := 0, led := true }

/-- Recording with an open session file whose size reached `ROTATE_BYTES`,
empty batch, sample interval not yet elapsed at time 60000. -/
def sysRotate : Sys :=
  { state := RecState.RECORDING, fileOpen := true, fileSize := ROTATE_BYTES,
    sessionDir := "/logs", sessionFile := "f.csv", sessionPath := "/logs/f.csv",
    batch := [], recStartMs := 0, lastLogMs := 58000, lastBatchMs := 0, led := true }

/-! ## Auxiliary lemmas -/

theorem decDigitsAux_val (fuel : Nat) :
    ∀ n, n ≤ fuel → digitVal (decDigitsAux fuel n) = n := by
  induction fuel with
  | zero => intro n h; interval_cases n; rfl
  | succ f ih =>
    intro n h
    by_cases h0 : n = 0
    · subst h0; simp [decDigitsAux, digitVal]
    · rw [decDigitsAux, if_neg h0]
      have hdiv : n / 10 ≤ f := by
        have h1 : n / 10 < n := Nat.div_lt_self (Nat.pos_of_ne_zero h0) (by norm_num)
        omega
      simp [digitVal, ih _ hdiv, Nat.mod_add_div]

theorem decDigits_val (n : Nat) : digitVal (decDigits n) = n :=
  decDigitsAux_val n n le_rfl

theorem decDigitsAux_lt (fuel : Nat) :
    ∀ n d, d ∈ decDigitsAux fuel n → d < 10 := by
  induction fuel with
  | zero => intro n d h; simp [decDigitsAux] at h
  | succ f ih =>
    intro n d h
    rw [decDigitsAux] at h
    by_cases h0 : n = 0
    · simp [h0] at h
    · rw [if_neg h0] at h
      rcases List.mem_cons.mp h with h1 | h1
      · subst h1; exact Nat.mod_lt _ (by norm_num)
      · exact ih _ _ h1

theorem decDigitsBE_lt (n d : Nat) (h : d ∈ decDigitsBE n) : d < 10 := by
  unfold decDigitsBE at h
  by_cases h0 : n = 0
  · simp [h0] at h; omega
  · rw [if_neg h0, List.mem_reverse] at h
    exact decDigitsAux_lt n n d h

theorem digitChar_inj (a b : Nat) (ha : a < 10) (hb : b < 10)
    (h : Nat.digitChar a = Nat.digitChar b) : a = b := by
  interval_cases a <;> interval_cases b <;> simp_all [Nat.digitChar]

theorem map_digitChar_inj :
    ∀ l1 l2 : List Nat, (∀ d ∈ l1, d < 10) → (∀ d ∈ l2, d < 10) →
      l1.map Nat.digitChar = l2.map Nat.digitChar → l1 = l2 := by
  intro l1
  induction l1 with
  | nil => intro l2 _ _ h; cases l2 <;> simp_all
  | cons a t ih =>
    intro l2 h1 h2 h
    cases l2 with
    | nil => simp at h
    | cons b t2 =>
      simp only [List.map_cons, List.cons.injEq] at h
      have ha : a = b :=
        digitChar_inj a b (h1 a (by simp)) (h2 b (by simp)) h.1
      have ht : t = t2 :=
        ih t2 (fun d hd => h1 d (by simp [hd])) (fun d hd => h2 d (by simp [hd])) h.2
      rw [ha, ht]

theorem decDigitsBE_val (n : Nat) : digitVal (decDigitsBE n).reverse = n := by
  unfold decDigitsBE
  by_cases h0 : n = 0
  · simp [h0, digitVal]
  · rw [if_neg h0, List.reverse_reverse, decDigits_val]

theorem decRepr_inj (m n : Nat) (h : decRepr m = decRepr n) : m = n := by
  unfold decRepr at h
  have hdata : ((decDigitsBE m).map Nat.digitChar) = ((decDigitsBE n).map Nat.digitChar) := by
    simpa [List.asString] using congrArg String.data h
  have hBE : decDigitsBE m = decDigitsBE n :=
    map_digitChar_inj _ _ (fun d hd => decDigitsBE_lt m d hd)
      (fun d hd => decDigitsBE_lt n d hd) hdata
  have := congrArg (fun l => digitVal l.reverse) hBE
  simpa [decDigitsBE_val] using this

/-- A flush against a closed file fails and leaves the state untouched. -/
theorem flushBatchToFile_closed (w : Nat → Bool) (s : Sys) (h : s.fileOpen = false) :
    flushBatchToFile w s = (false, s) := by
  simp [flushBatchToFile, h]

/-- A successful flush always leaves the batch buffer empty. -/
theorem flushBatchToFile_true_batch (w : Nat → Bool) (s : Sys)
    (h : (flushBatchToFile w s).1 = true) : (flushBatchToFile w s).2.batch = [] := by
  unfold flushBatchToFile at *
  by_cases h1 : s.fileOpen = false
  · simp [h1] at h
  · rw [Bool.not_eq_false] at h1
    by_cases h2 : s.batch = []
    · simp [h1, h2]
    · rcases hw : writeLines w 0 s.batch with ⟨ok, bytes⟩
      cases ok <;> simp [h1, h2, hw] at h ⊢

/-- When every underlying write is complete, the write loop writes the whole
batch from its first line and reports the total byte count. -/
theorem writeLines_allOk (w : Nat → Bool) (h : ∀ i, w i = true) :
    ∀ i l, writeLines w i l = (true, (l.map String.length).sum) := by
  intro i l
  induction l generalizing i with
  | nil => simp [writeLines]
  | cons a t ih => simp [writeLines, h i, ih (i + 1)]

/-- `setRecording false` always ends `IDLE` with the LED low and no open file. -/
theorem setRecording_false_basic (env : Env) (now : Nat) (s : Sys) :
    (setRecording false env now s).state = RecState.IDLE ∧
    (setRecording false env now s).fileOpen = false ∧
    (setRecording false env now s).led = false := by
  simp [setRecording, closeSessionFile]

/-- A failed flush leaves the batch buffer and the file-open flag unchanged. -/
theorem flushBatchToFile_false_frame (w : Nat → Bool) (s : Sys)
    (h : (flushBatchToFile w s).1 = false) :
    (flushBatchToFile w s).2.batch = s.batch ∧
    (flushBatchToFile w s).2.fileOpen = s.fileOpen := by
  unfold flushBatchToFile at *
  cases hfo : s.fileOpen with
  | false => simp [hfo]
  | true =>
    by_cases h2 : s.batch = []
    · simp [hfo, h2] at h
    · rcases hw : writeLines w 0 s.batch with ⟨ok, bytes⟩
      cases ok <;> simp [hfo, h2, hw] at h ⊢

/-- When every index in the probed window exists, the probing loop keeps the
base path. -/
theorem rotPathAux_all_exist (ex : String → Bool) (d f b : String) :
    ∀ r i, (∀ k, i ≤ k → k < i + r → ex (rotatedCandidate d f k) = true) →
      rotPathAux ex d f b i r = b := by
  intro r
  induction r with
  | zero => intro i _; rfl
  | succ rr ih =>
    intro i h
    have hc := h i le_rfl (by omega)
    simp only [rotPathAux, hc, if_true]
    exact ih (i + 1) (fun k hk1 hk2 => h k (by omega) (by omega))

/-- The probing loop returns the first non-existing candidate. -/
theorem rotPathAux_first_free (ex : String → Bool) (d f b : String) :
    ∀ r i j, i ≤ j → j < i + r → ex (rotatedCandidate d f j) = false →
      (∀ k, i ≤ k → k < j → ex (rotatedCandidate d f k) = true) →
      rotPathAux ex d f b i r = rotatedCandidate d f j := by
  intro r
  induction r with
  | zero => intro i j h1 h2 _ _; omega
  | succ rr ih =>
    intro i j h1 h2 h3 h4
    by_cases hij : i = j
    · subst hij
      simp only [rotPathAux, h3, Bool.false_eq_true, if_false]
    · have hlt : i < j := lt_of_le_of_ne h1 hij
      have hex : ex (rotatedCandidate d f i) = true := h4 i le_rfl hlt
      simp only [rotPathAux, hex, if_true]
      exact ih (i + 1) j (by omega) (by omega) h3 (fun k hk1 hk2 => h4 k (by omega) hk2)

/-- Against a closed file, the flush branch of the loop is exactly the
automatic stop. -/
theorem flushStep_closed (env : Env) (now : Nat) (s : Sys) (h : s.fileOpen = false) :
    flushStep env now s = setRecording false env now s := by
  simp [flushStep, flushBatchToFile_closed env.writeOk s h]

/-- Stopping against a closed file keeps the batch and the batch timer. -/
theorem setRecording_false_closed_frame (env : Env) (now : Nat) (s : Sys)
    (h : s.fileOpen = false) :
    (setRecording false env now s).batch = s.batch ∧
    (setRecording false env now s).lastBatchMs = s.lastBatchMs := by
  simp [setRecording, closeSessionFile, flushBatchToFile_closed env.writeOk s h]

/-! ## Claims -/

/-- Claim C1: `setRecording` with `on = true` reaches `RECORDING` exactly when
the storage medium is ready and `openNewSessionFile(false)` succeeds; when the
medium is not ready or the open fails, the state stays `IDLE` and the status
LED stays off (the failure is reported by return, no exception exists). -/
theorem claim_C1 (env : Env) (now : Nat) (s : Sys) :
    ((setRecording true env now s).state = RecState.RECORDING ↔
      env.sdReady = true ∧ (openNewSessionFile false env now s).1 = true) ∧
    (env.sdReady = false ∨ (openNewSessionFile false env now s).1 = false →
      (setRecording true env now s).state = RecState.IDLE ∧
      (setRecording true env now s).led = false) := by
  rcases hopen : openNewSessionFile false env now s with ⟨ok, s1⟩
  cases hsd : env.sdReady <;> cases ok <;> simp [setRecording, hsd, hopen]

/-- Witness for C1 at a concrete input: opens fail, so the state stays
`IDLE` with the LED off. -/
theorem claim_C1_witness :
    (setRecording true envNoOpen 0 sysIdle).state = RecState.IDLE ∧
    (setRecording true envNoOpen 0 sysIdle).led = false :=
  (claim_C1 envNoOpen 0 sysIdle).2 (Or.inr (by decide))

/-- Counterexample to Claim C2: a `request_stop` whose final flush fails (here
because no session file is open) leaves the previously buffered line in the
batch buffer, so `batchCount` is 1 and not 0 afterwards. -/
theorem claim_C2_counterexample :
    (setRecording false envAllOk 0 sysClosed1).batch = ["x"] ∧
    (setRecording false envAllOk 0 sysClosed1).batch ≠ [] := by
  decide

/-- Claim C2 as amended: after `setRecording(false)` the state is `IDLE` and
no file handle remains open, and the batch buffer is exactly what the final
flush left behind — empty whenever that flush succeeded, but its old contents
survive when the flush failed (they are discarded only at the next start). -/
theorem claim_C2_amended (env : Env) (now : Nat) (s : Sys) :
    (setRecording false env now s).state = RecState.IDLE ∧
    (setRecording false env now s).fileOpen = false ∧
    (setRecording false env now s).batch = (flushBatchToFile env.writeOk s).2.batch ∧
    ((flushBatchToFile env.writeOk s).1 = true → (setRecording false env now s).batch = []) := by
  refine ⟨(setRecording_false_basic env now s).1, (setRecording_false_basic env now s).2.1,
    ?_, ?_⟩
  · simp [setRecording, closeSessionFile]
  · intro h
    simp [setRecording, closeSessionFile, flushBatchToFile_true_batch env.writeOk s h]

/-- Witness for the amended C2 at a concrete input: an open file with every
write complete, so the final flush succeeds and the buffer drains. -/
theorem claim_C2_witness :
    (setRecording false envAllOk 0 sysOpen1).batch = [] :=
  (claim_C2_amended envAllOk 0 sysOpen1).2.2.2 (by decide)

/-- Claim C5: the batch buffer never exceeds `BATCH_MAX_LINES`: an append to
a full buffer fails and leaves the buffer untouched, an append below capacity
keeps the length within capacity, and after any successful flush (which
drains the buffer) the next append succeeds. -/
theorem claim_C5 (temps : List (Option Int)) (e q : Nat) (batch : List String)
    (h : batch.length ≤ BATCH_MAX_LINES) (w : Nat → Bool) (s : Sys) :
    (appendLineToBatch temps e q batch).2.length ≤ BATCH_MAX_LINES ∧
    (batch.length = BATCH_MAX_LINES → appendLineToBatch temps e q batch = (false, batch)) ∧
    ((flushBatchToFile w s).1 = true →
      (appendLineToBatch temps e q (flushBatchToFile w s).2.batch).1 = true) := by
  have hB : BATCH_MAX_LINES = 12 := rfl
  refine ⟨?_, ?_, ?_⟩
  · unfold appendLineToBatch
    by_cases hfull : BATCH_MAX_LINES ≤ batch.length
    · simp [hfull]; omega
    · simp [hfull, List.length_append]
      omega
  · intro h12
    simp [appendLineToBatch, h12]
  · intro hok
    rw [flushBatchToFile_true_batch w s hok]
    simp [appendLineToBatch, hB]

/-- Witness for C5 at concrete inputs: a full 12-line buffer rejects the
13th append unchanged, and after a successful flush the append succeeds. -/
theorem claim_C5_witness :
    appendLineToBatch [] 0 0 (List.replicate 12 "x") = (false, List.replicate 12 "x") ∧
    (appendLineToBatch [] 0 0 (flushBatchToFile envAllOk.writeOk sysOpen1).2.batch).1 = true :=
  ⟨(claim_C5 [] 0 0 (List.replicate 12 "x") (by decide) envAllOk.writeOk sysOpen1).2.1
      (by decide),
   (claim_C5 [] 0 0 (List.replicate 12 "x") (by decide) envAllOk.writeOk sysOpen1).2.2
      (by decide)⟩

/-- Claim C6: the sample tick computes the sequence number as the floor of
elapsed milliseconds since recording start over the sample interval (that is
what `sampleStep` appends), and for successive sample ticks of one session
(each at least one interval after the previous) the sequence numbers strictly
increase. -/
theorem claim_C6 :
    (∀ r t : Nat, seqAt r t = (t - r) / LOG_INTERVAL_MS) ∧
    (∀ env temps s now, s.batch.length < BATCH_MAX_LINES →
      (sampleStep env now temps s).batch
        = s.batch ++ [formatLine temps (now - s.recStartMs) (seqAt s.recStartMs now)]) ∧
    (∀ r t1 t2 : Nat, r ≤ t1 → t1 + LOG_INTERVAL_MS ≤ t2 → seqAt r t1 < seqAt r t2) := by
  refine ⟨fun r t => rfl, ?_, ?_⟩
  · intro env temps s now hlt
    unfold sampleStep
    simp [appendLineToBatch, Nat.not_le.mpr hlt, seqAt]
  · intro r t1 t2 h1 h2
    unfold seqAt
    have hpos : 0 < LOG_INTERVAL_MS := by norm_num [LOG_INTERVAL_MS]
    have h3 : t1 - r + LOG_INTERVAL_MS ≤ t2 - r := by
      unfold LOG_INTERVAL_MS at *; omega
    calc (t1 - r) / LOG_INTERVAL_MS
        < (t1 - r) / LOG_INTERVAL_MS + 1 := Nat.lt_succ_self _
      _ = (t1 - r + LOG_INTERVAL_MS) / LOG_INTERVAL_MS :=
          (Nat.add_div_right _ hpos).symm
      _ ≤ (t2 - r) / LOG_INTERVAL_MS := Nat.div_le_div_right h3

/-- Witness for C6 at concrete inputs: the sample at 5000 ms appends sequence
number `seqAt 0 5000` (= 1), and the next tick's number is strictly larger. -/
theorem claim_C6_witness :
    (sampleStep envAllOk 5000 [] sysOpen1).batch
      = sysOpen1.batch
        ++ [formatLine [] (5000 - sysOpen1.recStartMs) (seqAt sysOpen1.recStartMs 5000)] ∧
    seqAt 0 5000 < seqAt 0 10000 :=
  ⟨claim_C6.2.1 envAllOk [] sysOpen1 5000 (by decide),
   claim_C6.2.2 0 5000 10000 (by decide) (by decide)⟩

/-- Claim C7: the formatted CSV line is elapsed seconds (two decimals), a
comma, the sequence number as an unsigned decimal integer, then one
comma-separated field per channel — the literal `NaN` for the fault sentinel,
the two-decimal value otherwise — terminated by a newline; a fault is never
serialized as a numeric value (`fmt2c` output always contains `.`, `NaN`
never does). -/
theorem claim_C7 (t0 t1 t2 t3 t4 t5 : Option Int) (e q : Nat) :
    formatLine [t0, t1, t2, t3, t4, t5] e q
      = fmt2c (Int.ofNat (e / 10)) ++ "," ++ decRepr q ++ "," ++
        String.intercalate "," ([t0, t1, t2, t3, t4, t5].map csvField) ++ "\n" ∧
    csvField none = "NaN" ∧
    (∀ c : Int, csvField (some c) = fmt2c c ∧ fmt2c c ≠ "NaN") := by
  refine ⟨?_, rfl, ?_⟩
  · apply String.ext
    simp [formatLine, String.intercalate, String.intercalate.go, List.range_succ,
      String.data_append]
  · intro c
    refine ⟨rfl, ?_⟩
    intro hcon
    have hdot : '.' ∈ (fmt2c c).data := by
      unfold fmt2c
      simp only [String.data_append, List.mem_append]
      have hd : '.' ∈ (".").data := by decide
      tauto
    rw [congrArg String.data hcon] at hdot
    exact absurd hdot (by decide)

/-- Claim C8: for every channel count 1..6, the generated CSV header has
exactly N+2 comma-separated fields: `elapsed_s`, `seq`, then `T1_C..TN_C` in
increasing order; for N = 6 it coincides with the v2.2 constant header. -/
theorem claim_C8 (n : Nat) (h1 : 1 ≤ n) (h2 : n ≤ 6) :
    (commaFields (buildCsvHeader n)).length = n + 2 ∧
    commaFields (buildCsvHeader n)
      = "elapsed_s" :: "seq" :: (List.range' 1 n).map (fun i => "T" ++ decRepr i ++ "_C") ∧
    buildCsvHeader 6 = CSV_HEADER := by
  interval_cases n <;> exact ⟨by decide, by decide, by decide⟩

/-- Witness for C8 at the concrete channel count 3. -/
theorem claim_C8_witness :
    (commaFields (buildCsvHeader 3)).length = 3 + 2 ∧
    commaFields (buildCsvHeader 3)
      = "elapsed_s" :: "seq" :: (List.range' 1 3).map (fun i => "T" ++ decRepr i ++ "_C") :=
  ⟨(claim_C8 3 (by decide) (by decide)).1, (claim_C8 3 (by decide) (by decide)).2.1⟩

/-- Claim C9: with no valid wall clock, the session directory is the fixed
`/logs` root and the file name embeds the monotonic millisecond counter
(`SESSION_ms<millis>.csv`); different counters give different names, and when
the medium can open the resulting path the (non-rotation) open succeeds. -/
theorem claim_C9 (env : Env) (now : Nat) (s : Sys) (h : env.timeOk = false) :
    (buildSessionPaths env now s).sessionDir = "/logs" ∧
    (buildSessionPaths env now s).sessionFile = sessionFileNameNoRtc now ∧
    (buildSessionPaths env now s).sessionPath = "/logs/" ++ sessionFileNameNoRtc now ∧
    (∀ m1 m2 : Nat, m1 ≠ m2 → sessionFileNameNoRtc m1 ≠ sessionFileNameNoRtc m2) ∧
    (env.openOk ("/logs/" ++ sessionFileNameNoRtc now) = true →
      (openNewSessionFile false env now s).1 = true) := by
  refine ⟨by simp [buildSessionPaths, h], by simp [buildSessionPaths, h],
    by simp [buildSessionPaths, h], ?_, ?_⟩
  · intro m1 m2 hne heq
    apply hne
    unfold sessionFileNameNoRtc at heq
    have hdata := congrArg String.data heq
    simp only [String.data_append] at hdata
    have h1 := List.append_cancel_right hdata
    have h2 := List.append_cancel_left h1
    exact decRepr_inj m1 m2 (String.ext h2)
  · intro hopen
    simp [openNewSessionFile, buildSessionPaths, h, hopen]

/-- Witness for C9 at concrete inputs: no wall clock, open succeeds, counters
1 and 2 give distinct names. -/
theorem claim_C9_witness :
    (buildSessionPaths envAllOk 42 sysIdle).sessionDir = "/logs" ∧
    sessionFileNameNoRtc 1 ≠ sessionFileNameNoRtc 2 ∧
    (openNewSessionFile false envAllOk 42 sysIdle).1 = true :=
  ⟨(claim_C9 envAllOk 42 sysIdle rfl).1,
   (claim_C9 envAllOk 42 sysIdle rfl).2.2.2.1 1 2 (by decide),
   (claim_C9 envAllOk 42 sysIdle rfl).2.2.2.2 rfl⟩

/-- Claim C10: whenever `flushBatchToFile` fails (no open file, or a partial
write of some line), the batch buffer is unchanged — same `batchCount`, same
lines, including those already physically written before the failing one — so
a later retry with complete writes re-writes the whole batch from the first
line and drains it. -/
theorem claim_C10 (w : Nat → Bool) (s : Sys) (h : (flushBatchToFile w s).1 = false) :
    (flushBatchToFile w s).2.batch = s.batch ∧
    (flushBatchToFile w s).2.batch.length = s.batch.length ∧
    (s.fileOpen = false → flushBatchToFile w s = (false, s)) ∧
    (∀ w2 : Nat → Bool, (∀ i, w2 i = true) → s.fileOpen = true →
      (flushBatchToFile w2 (flushBatchToFile w s).2).1 = true ∧
      (flushBatchToFile w2 (flushBatchToFile w s).2).2.batch = []) := by
  obtain ⟨hbatch, hfo⟩ := flushBatchToFile_false_frame w s h
  refine ⟨hbatch, by rw [hbatch], fun hclosed => flushBatchToFile_closed w s hclosed, ?_⟩
  intro w2 hw2 hopen
  have hfo2 : (flushBatchToFile w s).2.fileOpen = true := by rw [hfo]; exact hopen
  generalize hgen : (flushBatchToFile w s).2 = s1 at hfo2 ⊢
  unfold flushBatchToFile
  rw [hfo2]
  by_cases hb : s1.batch = [] <;> simp [hb, writeLines_allOk w2 hw2]

/-- Counterexample to Claim C3: a tick in which the flush succeeds and the
rotation check closes the size-limit file but the rotated open fails leaves
the system still `RECORDING` with no open file — the caller does not stop the
session at that point. -/
theorem claim_C3_counterexample :
    sysRotate.fileOpen = true ∧ ROTATE_BYTES ≤ sysRotate.fileSize ∧
    (tick envNoOpen 60000 [] sysRotate).state = RecState.RECORDING ∧
    (tick envNoOpen 60000 [] sysRotate).fileOpen = false := by
  decide

/-- Claim C3 as amended: a failed rotated open is not an immediate stop —
`rotateIfNeeded` returns with the state unchanged (still `RECORDING`) and no
open file — but the failure is not permanently ignored either: at the next
tick whose flush condition holds (batch window elapsed or buffer full), the
flush against the missing file fails and the automatic stop path runs,
leaving `IDLE` with no open file. -/
theorem claim_C3_amended :
    (∀ env now s, s.fileOpen = true → ROTATE_BYTES ≤ s.fileSize →
      (∀ p, env.openOk p = false) →
      (rotateIfNeeded env now s).state = s.state ∧
      (rotateIfNeeded env now s).fileOpen = false) ∧
    (∀ env now temps s, s.state = RecState.RECORDING → s.fileOpen = false →
      BATCH_WINDOW_MS ≤ now - s.lastBatchMs ∨ BATCH_MAX_LINES ≤ s.batch.length →
      (tick env now temps s).state = RecState.IDLE ∧
      (tick env now temps s).fileOpen = false) := by
  constructor
  · intro env now s hopen hsize hfail
    unfold rotateIfNeeded
    rw [hopen]
    simp only [Bool.not_true, Bool.false_eq_true, if_false, Nat.not_lt.mpr hsize, if_neg]
    unfold openNewSessionFile buildSessionPaths closeSessionFile
    by_cases ht : env.timeOk <;> simp [ht, hfail]
  · intro env now temps s hrec hclosed hcond
    -- the flush phase against any closed-file state ends IDLE with no file
    have hstop : ∀ t : Sys, t.fileOpen = false →
        (t.state = RecState.IDLE ∨
          BATCH_WINDOW_MS ≤ now - t.lastBatchMs ∨ BATCH_MAX_LINES ≤ t.batch.length) →
        (tickFlushPhase env now t).state = RecState.IDLE ∧
        (tickFlushPhase env now t).fileOpen = false := by
      intro t ht hcase
      unfold tickFlushPhase
      by_cases hc : BATCH_WINDOW_MS ≤ now - t.lastBatchMs ∨ BATCH_MAX_LINES ≤ t.batch.length
      · rw [if_pos hc, flushStep_closed env now t ht]
        exact ⟨(setRecording_false_basic env now t).1, (setRecording_false_basic env now t).2.1⟩
      · rw [if_neg hc]
        rcases hcase with hidle | htrig
        · exact ⟨hidle, ht⟩
        · exact absurd htrig hc
    unfold tick
    rw [if_pos hrec]
    unfold tickSamplePhase
    by_cases hlog : LOG_INTERVAL_MS ≤ now - s.lastLogMs
    · rw [if_pos hlog]
      by_cases hfull : BATCH_MAX_LINES ≤ s.batch.length
      · -- the sampling branch itself already fails its flush and stops;
        -- a further flush phase stops again (idempotently)
        have hsample : sampleStep env now temps s
            = setRecording false env now { s with lastLogMs := now } := by
          unfold sampleStep
          simp only [appendLineToBatch]
          rw [if_pos (show BATCH_MAX_LINES ≤
            ({ s with lastLogMs := now } : Sys).batch.length from hfull)]
          rw [flushBatchToFile_closed env.writeOk { s with lastLogMs := now } hclosed]
        rw [hsample]
        exact hstop _ (setRecording_false_basic env now _).2.1
          (Or.inl (setRecording_false_basic env now _).1)
      · -- the append succeeds; the flush condition still holds (the batch
        -- only grew and the batch timer is untouched), and that flush
        -- fails against the closed file and stops
        have hsample : sampleStep env now temps s
            = { s with
                  lastLogMs := now,
                  batch := s.batch ++ [formatLine temps (now - s.recStartMs)
                    (seqAt s.recStartMs now)] } := by
          unfold sampleStep
          simp only [appendLineToBatch]
          rw [if_neg (show ¬ BATCH_MAX_LINES ≤
            ({ s with lastLogMs := now } : Sys).batch.length from hfull)]
        rw [hsample]
        refine hstop _ hclosed (Or.inr ?_)
        rcases hcond with hc | hc
        · exact Or.inl hc
        · exact absurd hc hfull
    · rw [if_neg hlog]
      exact hstop s hclosed (Or.inr hcond)

/-- Witness for the amended C3 at concrete inputs: a failed rotation leaves
`RECORDING` with no open file, and a later tick whose flush condition holds
stops the session. -/
theorem claim_C3_witness :
    ((rotateIfNeeded envNoOpen 60000 sysRotate).state = sysRotate.state ∧
     (rotateIfNeeded envNoOpen 60000 sysRotate).fileOpen = false) ∧
    ((tick envNoOpen 60000 [] sysClosed1).state = RecState.IDLE ∧
     (tick envNoOpen 60000 [] sysClosed1).fileOpen = false) :=
  ⟨claim_C3_amended.1 envNoOpen 60000 sysRotate rfl (by decide) (fun _ => rfl),
   claim_C3_amended.2 envNoOpen 60000 [] sysClosed1 rfl rfl (Or.inl (by decide))⟩

/-- Counterexample to Claim C4: when every one of the 99 suffixed paths
already exists, `openNewSessionFile(true)` does not return failure — it keeps
the freshly built unsuffixed base path and opens it. -/
theorem claim_C4_counterexample :
    (openNewSessionFile true envAllExist 7 sysRotate).1 = true ∧
    (openNewSessionFile true envAllExist 7 sysRotate).2.sessionPath
      = "/logs/" ++ sessionFileNameNoRtc 7 := by
  decide

/-- Claim C4 as amended: the rotated open probes suffixes `_01`..`_99` in
increasing order and picks the first path that does not exist; when all 99
candidates exist it keeps the unsuffixed base path instead of failing, and in
every case the open succeeds exactly when `SD.open` succeeds on the resolved
`sessionPath`. -/
theorem claim_C4_amended (ex : String → Bool) (d f base : String) (j : Nat)
    (env : Env) (now : Nat) (s : Sys) :
    (1 ≤ j → j ≤ 99 → ex (rotatedCandidate d f j) = false →
      (∀ k, 1 ≤ k → k < j → ex (rotatedCandidate d f k) = true) →
      pickRotationPath ex d f base = rotatedCandidate d f j) ∧
    ((∀ k, 1 ≤ k → k ≤ 99 → ex (rotatedCandidate d f k) = true) →
      pickRotationPath ex d f base = base) ∧
    (openNewSessionFile true env now s).1
      = env.openOk ((openNewSessionFile true env now s).2.sessionPath) := by
  refine ⟨?_, ?_, ?_⟩
  · intro h1 h2 h3 h4
    exact rotPathAux_first_free ex d f base 99 1 j h1 (by omega) h3
      (fun k hk1 hk2 => h4 k hk1 hk2)
  · intro h
    exact rotPathAux_all_exist ex d f base 99 1 (fun k hk1 hk2 => h k hk1 (by omega))
  · unfold openNewSessionFile
    by_cases ho : env.openOk
        (pickRotationPath env.sdExists (buildSessionPaths env now s).sessionDir
          (buildSessionPaths env now s).sessionFile
          (buildSessionPaths env now s).sessionPath) = true
    · simp [ho]
    · rw [Bool.not_eq_true] at ho
      simp [ho]

/-- Witness for the amended C4 at concrete inputs: with no path existing the
first candidate `_01` is chosen; with every path existing the base path is
kept. -/
theorem claim_C4_witness :
    pickRotationPath (fun _ => false) "/logs" "f.csv" "/logs/f.csv"
      = rotatedCandidate "/logs" "f.csv" 1 ∧
    pickRotationPath (fun _ => true) "/logs" "f.csv" "/logs/f.csv" = "/logs/f.csv" :=
  ⟨(claim_C4_amended (fun _ => false) "/logs" "f.csv" "/logs/f.csv" 1 envAllOk 0 sysIdle).1
      (by decide) (by decide) rfl (fun k hk1 hk2 => absurd hk2 (by omega)),
   (claim_C4_amended (fun _ => true) "/logs" "f.csv" "/logs/f.csv" 1 envAllOk 0 sysIdle).2.1
      (fun _ _ _ => rfl)⟩

/-- Witness for C10 at a concrete input: every write fails, the flush fails,
the single buffered line survives, and a retry with complete writes drains it. -/
theorem claim_C10_witness :
    (flushBatchToFile (fun _ => false) sysOpen1).2.batch = sysOpen1.batch ∧
    (flushBatchToFile (fun _ => true) (flushBatchToFile (fun _ => false) sysOpen1).2).1
      = true :=
  ⟨(claim_C10 (fun _ => false) sysOpen1 (by decide)).1,
   ((claim_C10 (fun _ => false) sysOpen1 (by decide)).2.2.2 (fun _ => true)
      (fun _ => rfl) rfl).1⟩

end Thermolog
